import Mathlib

/-!
# go-mews websocket client: event routing, read loop, keep-alive, close, connect URL

A shallow embedding of `websocket.go`.  Goroutines are modelled as functions from the
sequence of outcomes their blocking operations had (which `select` case ran, what
`ReadMessage` / `WriteControl` returned) to the trace of channel sends they performed
and the status they ended in.  Channels are unbuffered in the source; a send recorded in
a trace is a send that a consumer received.

`encoding/json`, `net/url` and `gorilla/websocket` are libraries outside the repository.
`json.Unmarshal` is a parameter of the model (`Unmarshal`).  The parts of `net/url` that
`Connect` calls (`URL.Query`, `Values.Add`, `Values.Encode`) are modelled on strings that
hold one byte per character.  Read and write deadlines, the sleep of `Close` and the
debug log lines are left out.
-/

namespace Mews

/-! ## Data model -/

/-- Go `error` values the client handles.  The read loop only distinguishes whether the
dynamic type is `*websocket.CloseError`. -/
inductive GoError where
  | closeError (code : Int) (text : String)
  | other (msg : String)
  deriving DecidableEq, Repr

/-- The type assertion `_, ok := err.(*websocket.CloseError)`. -/
def GoError.isCloseError : GoError → Bool
  | .closeError _ _ => true
  | .other _ => false

abbrev EventType := String

def EventTypeDeviceCommand : EventType := "DeviceCommand"
def EventTypeReservation : EventType := "Reservation"
def EventTypeSpace : EventType := "Space"
def EventTypePriceUpdate : EventType := "PriceUpdate"

/-- An instant of `time.Time`: seconds since the Unix epoch and nanoseconds. -/
structure Time where
  sec : Int
  nsec : Nat
  deriving DecidableEq, Repr

/-- The type `json.RawMessage`: the undecoded bytes of one sub-message. -/
abbrev RawMessage := String

structure Message where
  Events : List RawMessage
  deriving DecidableEq, Repr

structure Event where
  type : EventType
  ID : String
  State : String
  deriving DecidableEq, Repr

structure CommandEvent where
  Event : Event
  deriving DecidableEq, Repr

structure ReservationEvent where
  Event : Event
  ID : String
  State : String
  StartUTC : Time
  EndUTC : Time
  AssignedSpaceID : String
  deriving DecidableEq, Repr

structure SpaceEvent where
  Event : Event
  State : String
  deriving DecidableEq, Repr

structure PriceUpdateEvent where
  Event : Event
  StartUTC : Time
  EndUtc : Time
  RateID : String
  SpaceCategoryID : String
  deriving DecidableEq, Repr

/-- The calls `json.Unmarshal(bytes, &v)` of the read loop, one per target type; each
starts from a zero value, so the result is a function of the bytes. -/
structure Unmarshal where
  message : String → Except GoError Message
  event : RawMessage → Except GoError Event
  commandEvent : RawMessage → Except GoError CommandEvent
  reservationEvent : RawMessage → Except GoError ReservationEvent
  spaceEvent : RawMessage → Except GoError SpaceEvent
  priceUpdateEvent : RawMessage → Except GoError PriceUpdateEvent

/-- A channel field of the client: `nil` (zero value) or created by `make`. -/
inductive Chan where
  | nil
  | make
  deriving DecidableEq, Repr

/-- The fields of `url.URL` the client uses. -/
structure URL where
  Scheme : String
  Host : String
  Path : String
  RawQuery : String
  deriving DecidableEq, Repr

/-- A non-nil `*url.URL`: one of the two package-level variables, or a URL made by the caller. -/
inductive URLRef where
  | WebsocketURL
  | WebsocketURLDemo
  | alloc (n : Nat)
  deriving DecidableEq, Repr

/-- The `url.URL` values behind the pointers. -/
structure Heap where
  WebsocketURL : URL
  WebsocketURLDemo : URL
  alloc : Nat → URL

/-- The package-level `var` block, before any client exists. -/
def Heap.init : Heap where
  WebsocketURL := ⟨"wss", "www.mews.li", "/ws/connector", ""⟩
  WebsocketURLDemo := ⟨"wss", "demo.mews.li", "/ws/connector", ""⟩
  alloc := fun _ => ⟨"", "", "", ""⟩

def Heap.get (h : Heap) : URLRef → URL
  | .WebsocketURL => h.WebsocketURL
  | .WebsocketURLDemo => h.WebsocketURLDemo
  | .alloc n => h.alloc n

def Heap.set (h : Heap) (r : URLRef) (u : URL) : Heap :=
  match r with
  | .WebsocketURL => { h with WebsocketURL := u }
  | .WebsocketURLDemo => { h with WebsocketURLDemo := u }
  | .alloc n => { h with alloc := fun m => if m = n then u else h.alloc m }

/-- The state of a `*websocket.Conn` that the client changes: the number of ping control
frames handed to `WriteControl`, whether a close frame was written, and whether the
underlying network connection has been closed. -/
structure Conn where
  pings : Nat
  closeSent : Bool
  closed : Bool
  deriving DecidableEq, Repr

/-- The struct `Websocket`.  The fields `client`, `disallowUnknownFields` and `cancelFunc`
are never read or written by the source and are left out. -/
structure Websocket where
  baseURL : Option URLRef
  debug : Bool
  accessToken : String
  clientToken : String
  connection : Option Conn
  doneChan : Chan
  errChan : Chan
  cmdChan : Chan
  resChan : Chan
  spaceChan : Chan
  priceUpdateChan : Chan
  deriving DecidableEq, Repr

/-- One completed channel send. -/
inductive Send where
  | cmd (e : CommandEvent)
  | res (e : ReservationEvent)
  | space (e : SpaceEvent)
  | priceUpdate (e : PriceUpdateEvent)
  | err (e : GoError)
  deriving DecidableEq, Repr

/-- Where a goroutine stands: still in its loop, returned, blocked forever on a send
to a nil channel, or stopped by a nil pointer dereference. -/
inductive Status where
  | running
  | returned
  | blocked
  | panicked
  deriving DecidableEq, Repr

/-- The effect of a piece of the read goroutine: the sends made and the status after. -/
structure Step where
  sends : List Send
  status : Status
  deriving DecidableEq, Repr

/-- Sequencing: the second piece runs only if the first fell through. -/
def Step.andThen (s k : Step) : Step :=
  match s.status with
  | .running => ⟨s.sends ++ k.sends, k.status⟩
  | _ => s

/-! ## Queue projections of a trace -/

def cmdQueue : List Send → List CommandEvent
  | [] => []
  | .cmd e :: t => e :: cmdQueue t
  | _ :: t => cmdQueue t

def resQueue : List Send → List ReservationEvent
  | [] => []
  | .res e :: t => e :: resQueue t
  | _ :: t => resQueue t

def spaceQueue : List Send → List SpaceEvent
  | [] => []
  | .space e :: t => e :: spaceQueue t
  | _ :: t => spaceQueue t

def priceUpdateQueue : List Send → List PriceUpdateEvent
  | [] => []
  | .priceUpdate e :: t => e :: priceUpdateQueue t
  | _ :: t => priceUpdateQueue t

def errQueue : List Send → List GoError
  | [] => []
  | .err e :: t => e :: errQueue t
  | _ :: t => errQueue t

/-- The five queues of a trace: command, reservation, space, price-update, error. -/
def queues (sends : List Send) :
    List CommandEvent × List ReservationEvent × List SpaceEvent × List PriceUpdateEvent
      × List GoError :=
  (cmdQueue sends, resQueue sends, spaceQueue sends, priceUpdateQueue sends, errQueue sends)

/-! ## The read goroutine of `Connect` -/

/-- The statements `ws.errChan <- err; return`. -/
def sendErr (ws : Websocket) (err : GoError) : Step :=
  match ws.errChan with
  | .nil => ⟨[], .blocked⟩
  | .make => ⟨[.err err], .returned⟩

/-- The first `if` of the range body: `event.Type == EventTypeDeviceCommand && ws.cmdChan != nil`. -/
def dispatchCommand (U : Unmarshal) (ws : Websocket) (event : Event) (b : RawMessage) : Step :=
  if event.type = EventTypeDeviceCommand ∧ ws.cmdChan ≠ .nil then
    match U.commandEvent b with
    | .error err => sendErr ws err
    | .ok cmdEvent => ⟨[.cmd cmdEvent], .running⟩
  else ⟨[], .running⟩

/-- The `if / else if / else if` chain of the range body. -/
def dispatchChain (U : Unmarshal) (ws : Websocket) (event : Event) (b : RawMessage) : Step :=
  if event.type = EventTypeReservation ∧ ws.resChan ≠ .nil then
    match U.reservationEvent b with
    | .error err => sendErr ws err
    | .ok resEvent => ⟨[.res resEvent], .running⟩
  else if event.type = EventTypeSpace ∧ ws.spaceChan ≠ .nil then
    match U.spaceEvent b with
    | .error err => sendErr ws err
    | .ok spaceEvent => ⟨[.space spaceEvent], .running⟩
  else if event.type = EventTypePriceUpdate ∧ ws.priceUpdateChan ≠ .nil then
    match U.priceUpdateEvent b with
    | .error err => sendErr ws err
    | .ok priceUpdateEvent => ⟨[.priceUpdate priceUpdateEvent], .running⟩
  else ⟨[], .running⟩

/-- The body of `for _, b := range message.Events`, for one `b`. -/
def routeEvent (U : Unmarshal) (ws : Websocket) (b : RawMessage) : Step :=
  match U.event b with
  | .error err => sendErr ws err
  | .ok event => (dispatchCommand U ws event b).andThen (dispatchChain U ws event b)

/-- The loop `for _, b := range message.Events`. -/
def rangeEvents (U : Unmarshal) (ws : Websocket) : List RawMessage → Step
  | [] => ⟨[], .running⟩
  | b :: rest => (routeEvent U ws b).andThen (rangeEvents U ws rest)

/-- What `ws.connection.ReadMessage()` returned. -/
inductive ReadResult where
  | message (msg : String)
  | error (err : GoError)
  deriving DecidableEq, Repr

/-- Which case of the `select` ran in one iteration of the read loop: `<-ctx.Done()`, or
`default` together with the result of the read it performs. -/
inductive Select where
  | done
  | default (r : ReadResult)
  deriving DecidableEq, Repr

/-- The `default` case of the read loop, from the result of `ReadMessage` on. -/
def onRead (U : Unmarshal) (ws : Websocket) : ReadResult → Step
  | .error err =>
    if err.isCloseError then ⟨[], .returned⟩ else sendErr ws err
  | .message msg =>
    match U.message msg with
    | .error err => sendErr ws err
    | .ok message => rangeEvents U ws message.Events

/-- The state of the read goroutine after a run: its sends, its status, the number of
loop iterations it began and the number of `ReadMessage` calls it made. -/
structure LoopState where
  sends : List Send
  status : Status
  iterations : Nat
  reads : Nat
  deriving DecidableEq, Repr

/-- The read goroutine over a finite script of `select` outcomes.  In the `ctx.Done()`
case the `break` leaves the `select` statement, after which the `for` takes its next
iteration.  When the script is used up the goroutine is still in its loop. -/
def readLoop (U : Unmarshal) (ws : Websocket) : List Select → LoopState
  | [] => ⟨[], .running, 0, 0⟩
  | .done :: rest =>
    let l := readLoop U ws rest
    ⟨l.sends, l.status, l.iterations + 1, l.reads⟩
  | .default r :: rest =>
    let s := onRead U ws r
    match s.status with
    | .running =>
      let l := readLoop U ws rest
      ⟨s.sends ++ l.sends, l.status, l.iterations + 1, l.reads + 1⟩
    | st => ⟨s.sends, st, 1, 1⟩

/-! ## The keep-alive goroutine -/

/-- Which case of the `select` of `KeepAlive` ran: `<-ticker.C` together with the error
that `WriteControl(PingMessage, ...)` returned (`none` for nil), or `<-ctx.Done()`. -/
inductive KeepAliveSelect where
  | tick (write : Option GoError)
  | done
  deriving DecidableEq, Repr

/-- The outcome of a call: still inside, returned a value, or panicked on a nil pointer. -/
inductive Call (α : Type) where
  | running
  | returned (value : α)
  | panicked
  deriving DecidableEq, Repr

/-- The state of a `KeepAlive` call after a run: the connection and the outcome. -/
structure KeepAliveState where
  conn : Conn
  result : Call (Option GoError)
  deriving DecidableEq, Repr

/-- The loop of `KeepAlive` on the connection `ws.connection` points to. -/
def keepAliveLoop (conn : Conn) : List KeepAliveSelect → KeepAliveState
  | [] => ⟨conn, .running⟩
  | .tick none :: rest => keepAliveLoop { conn with pings := conn.pings + 1 } rest
  | .tick (some err) :: _ => ⟨{ conn with pings := conn.pings + 1 }, .returned (some err)⟩
  | .done :: _ => ⟨conn, .returned none⟩

/-- The state of the keep-alive goroutine of `Connect`: the connection (`none` when
`ws.connection` is nil), the outcome of `KeepAlive` and the sends of the goroutine. -/
structure KeepAliveRun where
  conn : Option Conn
  result : Call (Option GoError)
  sends : List Send
  status : Status
  deriving DecidableEq, Repr

/-- The method `KeepAlive`.  With a nil `ws.connection` the first tick panics. -/
def KeepAlive (ws : Websocket) (script : List KeepAliveSelect) : Option Conn × Call (Option GoError) :=
  match ws.connection with
  | some conn => let r := keepAliveLoop conn script; (some r.conn, r.result)
  | none =>
    match script with
    | [] => (none, .running)
    | .tick _ :: _ => (none, .panicked)
    | .done :: _ => (none, .returned none)

/-- The goroutine `go func() { err := ws.KeepAlive(ctx); if err != nil { ws.errChan <- err } }()`. -/
def keepAliveGoroutine (ws : Websocket) (script : List KeepAliveSelect) : KeepAliveRun :=
  match KeepAlive ws script with
  | (conn, .returned (some err)) =>
    match ws.errChan with
    | .nil => ⟨conn, .returned (some err), [], .blocked⟩
    | .make => ⟨conn, .returned (some err), [.err err], .returned⟩
  | (conn, .returned none) => ⟨conn, .returned none, [], .returned⟩
  | (conn, .running) => ⟨conn, .running, [], .running⟩
  | (conn, .panicked) => ⟨conn, .panicked, [], .panicked⟩

/-! ## `Close` -/

/-- The method `Close`.  `write` is what `WriteControl(CloseMessage, ...)` returned and
`close` what `ws.connection.Close()` returned.  The method reads nothing from the
connection, so an answer of the peer to the close frame is not an input.  The result is
`none` when `ws.connection` is nil (nil pointer dereference). -/
def Close (ws : Websocket) (write close : Option GoError) :
    Option (Websocket × Option GoError) :=
  match ws.connection with
  | none => none
  | some conn =>
    match write with
    | some err => some (ws, some err)
    | none =>
      let conn := { conn with closeSent := true }
      some ({ ws with connection := some { conn with closed := true } }, close)

/-! ## The part of `net/url` used by `Connect` -/

/-- The type `url.Values`: keys with their values, in order of first insertion. -/
abbrev Values := List (String × List String)

/-- The lookup `v[key]`. -/
def Values.Get (v : Values) (key : String) : List String :=
  match v with
  | [] => []
  | (k, vs) :: t => if k = key then vs else Values.Get t key

/-- The method `Values.Add`: `v[key] = append(v[key], value)`. -/
def Values.Add (v : Values) (key value : String) : Values :=
  match v with
  | [] => [(key, [value])]
  | (k, vs) :: t => if k = key then (k, vs ++ [value]) :: t else (k, vs) :: Values.Add t key value

def ishex (c : Char) : Bool :=
  (48 ≤ c.toNat && c.toNat ≤ 57) || (97 ≤ c.toNat && c.toNat ≤ 102)
    || (65 ≤ c.toNat && c.toNat ≤ 70)

def unhex (c : Char) : Nat :=
  if 48 ≤ c.toNat ∧ c.toNat ≤ 57 then c.toNat - 48
  else if 97 ≤ c.toNat ∧ c.toNat ≤ 102 then c.toNat - 97 + 10
  else if 65 ≤ c.toNat ∧ c.toNat ≤ 70 then c.toNat - 65 + 10
  else 0

/-- The function `unescape` of net/url in query-component mode; `none` is an `EscapeError`. -/
def unescape : List Char → Option (List Char)
  | [] => some []
  | '%' :: a :: b :: t =>
    if ishex a ∧ ishex b then
      (unescape t).map (Char.ofNat (unhex a * 16 + unhex b) :: ·)
    else none
  | '%' :: _ => none
  | '+' :: t => (unescape t).map (' ' :: ·)
  | c :: t => (unescape t).map (c :: ·)

/-- The function `shouldEscape` of net/url in query-component mode: everything but
letters, digits and `-`, `_`, `.`, `~`. -/
def shouldEscape (c : Char) : Bool :=
  let n := c.toNat
  !((97 ≤ n && n ≤ 122) || (65 ≤ n && n ≤ 90) || (48 ≤ n && n ≤ 57)
    || c = '-' || c = '_' || c = '.' || c = '~')

def upperhex (n : Nat) : Char := "0123456789ABCDEF".data.getD n '0'

/-- The function `escape` of net/url in query-component mode. -/
def escape : List Char → List Char
  | [] => []
  | c :: t =>
    if c = ' ' then '+' :: escape t
    else if shouldEscape c then
      '%' :: upperhex (c.toNat / 16 % 16) :: upperhex (c.toNat % 16) :: escape t
    else c :: escape t

def QueryEscape (s : String) : String := ⟨escape s.data⟩

/-- The function `strings.Cut` for a one-byte separator (the found flag is not used). -/
def cut (sep : Char) : List Char → List Char × List Char
  | [] => ([], [])
  | c :: t => if c = sep then ([], t) else let (a, b) := cut sep t; (c :: a, b)

/-- The pieces the loop of `parseQuery` gets by cutting at each `&`. -/
def pieces (sep : Char) : List Char → List (List Char)
  | [] => [[]]
  | c :: t =>
    if c = sep then [] :: pieces sep t
    else
      match pieces sep t with
      | [] => [[c]]
      | p :: ps => (c :: p) :: ps

/-- One round of the loop of `parseQuery`: a piece with a semicolon, an empty piece and a
piece that does not unescape are skipped. -/
def parsePair (m : Values) (pair : List Char) : Values :=
  if pair.contains ';' then m
  else if pair = [] then m
  else
    let (k, v) := cut '=' pair
    match unescape k, unescape v with
    | some k, some v => m.Add ⟨k⟩ ⟨v⟩
    | _, _ => m

/-- The function `url.ParseQuery`, with its error dropped as `URL.Query` does. -/
def ParseQuery (query : String) : Values :=
  (pieces '&' query.data).foldl parsePair []

/-- The method `URL.Query`. -/
def URL.Query (u : URL) : Values := ParseQuery u.RawQuery

/-- Byte-wise `<` on strings. -/
def less : List Char → List Char → Bool
  | _, [] => false
  | [], _ :: _ => true
  | a :: s, b :: t => a.toNat < b.toNat || (a.toNat = b.toNat && less s t)

def insertKey (k : String) : List String → List String
  | [] => [k]
  | a :: t => if less k.data a.data then k :: a :: t else a :: insertKey k t

def sortKeys (ks : List String) : List String := ks.foldr insertKey []

def encodeKey (k : String) (vs : List String) : List String :=
  vs.map (fun v => QueryEscape k ++ "=" ++ QueryEscape v)

/-- The method `Values.Encode`: `key=value` pairs joined by `&`, sorted by key. -/
def Values.Encode (v : Values) : String :=
  "&".intercalate ((sortKeys (v.map Prod.fst)).flatMap (fun k => encodeKey k (v.Get k)))

/-! ## Construction and `Connect` -/

def Websocket.AccessToken (ws : Websocket) : String := ws.accessToken

def Websocket.SetAccessToken (ws : Websocket) (accessToken : String) : Websocket :=
  { ws with accessToken := accessToken }

def Websocket.ClientToken (ws : Websocket) : String := ws.clientToken

def Websocket.SetClientToken (ws : Websocket) (clientToken : String) : Websocket :=
  { ws with clientToken := clientToken }

def Websocket.BaseURL (ws : Websocket) : Option URLRef := ws.baseURL

/-- The method `SetBaseURL`: stores the pointer, then writes `"wss"` through it. -/
def Websocket.SetBaseURL (h : Heap) (ws : Websocket) (baseURL : URLRef) : Heap × Websocket :=
  let ws := { ws with baseURL := some baseURL }
  (h.set baseURL { h.get baseURL with Scheme := "wss" }, ws)

def Websocket.SetDebug (ws : Websocket) (debug : Bool) : Websocket :=
  { ws with debug := debug }

/-- The zero value `Websocket{}`. -/
def Websocket.zero : Websocket :=
  ⟨none, false, "", "", none, .nil, .nil, .nil, .nil, .nil, .nil⟩

/-- The function `NewWebsocket`; the `httpClient` argument is not stored by the source. -/
def NewWebsocket (h : Heap) (accessToken clientToken : String) : Heap × Websocket :=
  let ws := Websocket.zero
  let ws := ws.SetAccessToken accessToken
  let ws := ws.SetClientToken clientToken
  let ws := ws.SetDebug false
  let (h, ws) := Websocket.SetBaseURL h ws .WebsocketURL
  (h, { ws with doneChan := .make, errChan := .make, cmdChan := .make, resChan := .make,
                spaceChan := .make, priceUpdateChan := .make })

/-- What a call of `Connect` leaves behind: the URL values, the client, the URL whose
text `u.String()` was handed to `Dial`, and the returned error. -/
structure Connected where
  heap : Heap
  ws : Websocket
  dialed : URL
  err : Option GoError

/-- The method `Connect` up to the start of its two goroutines (`keepAliveGoroutine`,
`readLoop`).  `dial` is the error `Dial` returned (`none` for nil).  The result is `none`
when `ws.baseURL` is nil (nil pointer dereference in `u.Query()`). -/
def Connect (h : Heap) (ws : Websocket) (dial : Option GoError) : Option Connected :=
  match ws.BaseURL with
  | none => none
  | some u =>
    let q := (h.get u).Query
    let q := q.Add "ClientToken" ws.ClientToken
    let q := q.Add "AccessToken" ws.AccessToken
    let h := h.set u { h.get u with RawQuery := q.Encode }
    match dial with
    | some err => some ⟨h, { ws with connection := none }, h.get u, some err⟩
    | none => some ⟨h, { ws with connection := some ⟨0, false, false⟩ }, h.get u, none⟩

/-! ## The dispatch table of the specification -/

/-- The kinds of the closed set. -/
def recognized (t : EventType) : Bool :=
  t = EventTypeDeviceCommand || t = EventTypeReservation || t = EventTypeSpace
    || t = EventTypePriceUpdate

/-- The dispatch table as the specification words it (kind → variant → destination
queue): the typed decode of a sub-message of a given kind, as the send it leads to;
`none` for a kind outside the closed set. -/
def dispatchTable (U : Unmarshal) (t : EventType) (b : RawMessage) : Option (Except GoError Send) :=
  if t = EventTypeDeviceCommand then some ((U.commandEvent b).map Send.cmd)
  else if t = EventTypeReservation then some ((U.reservationEvent b).map Send.res)
  else if t = EventTypeSpace then some ((U.spaceEvent b).map Send.space)
  else if t = EventTypePriceUpdate then some ((U.priceUpdateEvent b).map Send.priceUpdate)
  else none

/-- The event the specification expects for one sub-message of a valid envelope. -/
def expectedSend (U : Unmarshal) (b : RawMessage) : Option Send :=
  match U.event b with
  | .error _ => none
  | .ok event =>
    match dispatchTable U event.type b with
    | some (.ok s) => some s
    | _ => none

/-- A valid sub-message: its routing header decodes and, if its kind is in the closed
set, its typed event decodes. -/
def validSub (U : Unmarshal) (b : RawMessage) : Prop :=
  ∃ event, U.event b = .ok event ∧ ∀ err, dispatchTable U event.type b ≠ some (.error err)

/-- The sub-messages of a frame, when it decodes. -/
def subMessages (U : Unmarshal) (frame : String) : List RawMessage :=
  match U.message frame with
  | .ok message => message.Events
  | .error _ => []

/-- A valid envelope: the frame decodes and every sub-message is valid. -/
def validEnvelope (U : Unmarshal) (frame : String) : Prop :=
  (∃ message, U.message frame = .ok message) ∧ ∀ b ∈ subMessages U frame, validSub U b

/-- All channels of the client were created, as `NewWebsocket` does. -/
def Websocket.chansMade (ws : Websocket) : Prop :=
  ws.errChan = .make ∧ ws.cmdChan = .make ∧ ws.resChan = .make ∧ ws.spaceChan = .make
    ∧ ws.priceUpdateChan = .make

/-! ## Sample data -/

/-- The sub-message of the specification's scenario. -/
def subReservation : RawMessage :=
  "\x7b\"Id\":\"a1\",\"Type\":\"Reservation\",\"State\":\"Confirmed\",\"StartUtc\":\"2024-01-01T00:00:00Z\",\"EndUtc\":\"2024-01-02T00:00:00Z\",\"AssignedSpaceId\":\"s1\"\x7d"

def subSpace : RawMessage := "\x7b\"Id\":\"s1\",\"Type\":\"Space\",\"State\":\"Dirty\"\x7d"

def subUnknown : RawMessage := "\x7b\"Id\":\"u1\",\"Type\":\"Unknown\"\x7d"

/-- A reservation whose start is no RFC 3339 time. -/
def subBadReservation : RawMessage :=
  "\x7b\"Id\":\"a2\",\"Type\":\"Reservation\",\"StartUtc\":\"yesterday\"\x7d"

/-- The frame text `{"Events":[...]}` around the given sub-messages. -/
def envelope (subs : List RawMessage) : String :=
  "\x7b\"Events\":[" ++ ",".intercalate subs ++ "]\x7d"

/-- A device command whose `Id` is a number: its routing header does not decode. -/
def subBadCommand : RawMessage := "\x7b\"Type\":\"DeviceCommand\",\"Id\":5\x7d"

def sampleEnvelopes : List (List RawMessage) :=
  [[subReservation], [subReservation, subSpace], [subSpace, subBadReservation, subReservation],
   [subUnknown], [subSpace, subBadCommand, subReservation]]

def syntaxError : GoError := .other "invalid character"

def timeError : GoError :=
  .other "parsing time \"yesterday\" as \"2006-01-02T15:04:05Z07:00\": cannot parse \"yesterday\" as \"2006\""

/-- The error of a number met where the string field `Id` of the given struct stands. -/
def typeError (struct : String) : GoError :=
  .other ("json: cannot unmarshal number into Go struct field " ++ struct ++ ".Id of type string")

/-- The zero value of `time.Time`: January 1 of year 1, 00:00 UTC. -/
def Time.zero : Time := ⟨-62135596800, 0⟩

/-- The reservation event encoding/json decodes from `subReservation`: the outer `Id` and
`State` fields take the values, the embedded ones of the same JSON name stay zero. -/
def sampleReservation : ReservationEvent :=
  ⟨⟨"Reservation", "", ""⟩, "a1", "Confirmed", ⟨1704067200, 0⟩, ⟨1704153600, 0⟩, "s1"⟩

def sampleSpace : SpaceEvent := ⟨⟨"Space", "s1", ""⟩, "Dirty"⟩

/-- A table of `json.Unmarshal` results on the sample texts, with the error texts of
Go 1.20 and later; any other text is taken for malformed JSON. -/
def sampleUnmarshal : Unmarshal where
  message s :=
    match sampleEnvelopes.find? (fun subs => envelope subs = s) with
    | some subs => .ok ⟨subs⟩
    | none => .error syntaxError
  event b :=
    if b = subReservation then .ok ⟨"Reservation", "a1", "Confirmed"⟩
    else if b = subSpace then .ok ⟨"Space", "s1", "Dirty"⟩
    else if b = subUnknown then .ok ⟨"Unknown", "u1", ""⟩
    else if b = subBadReservation then .ok ⟨"Reservation", "a2", ""⟩
    else if b = subBadCommand then .error (typeError "Event")
    else .error syntaxError
  commandEvent b :=
    if b = subReservation then .ok ⟨⟨"Reservation", "a1", "Confirmed"⟩⟩
    else if b = subSpace then .ok ⟨⟨"Space", "s1", "Dirty"⟩⟩
    else if b = subUnknown then .ok ⟨⟨"Unknown", "u1", ""⟩⟩
    else if b = subBadReservation then .ok ⟨⟨"Reservation", "a2", ""⟩⟩
    else if b = subBadCommand then .error (typeError "CommandEvent")
    else .error syntaxError
  reservationEvent b :=
    if b = subReservation then .ok sampleReservation
    else if b = subSpace then .ok ⟨⟨"Space", "", ""⟩, "s1", "Dirty", Time.zero, Time.zero, ""⟩
    else if b = subUnknown then .ok ⟨⟨"Unknown", "", ""⟩, "u1", "", Time.zero, Time.zero, ""⟩
    else if b = subBadReservation then .error timeError
    else if b = subBadCommand then .error (typeError "ReservationEvent")
    else .error syntaxError
  spaceEvent b :=
    if b = subReservation then .ok ⟨⟨"Reservation", "a1", ""⟩, "Confirmed"⟩
    else if b = subSpace then .ok sampleSpace
    else if b = subUnknown then .ok ⟨⟨"Unknown", "u1", ""⟩, ""⟩
    else if b = subBadReservation then .ok ⟨⟨"Reservation", "a2", ""⟩, ""⟩
    else if b = subBadCommand then .error (typeError "SpaceEvent")
    else .error syntaxError
  priceUpdateEvent b :=
    if b = subReservation then
      .ok ⟨⟨"Reservation", "a1", "Confirmed"⟩, ⟨1704067200, 0⟩, ⟨1704153600, 0⟩, "", ""⟩
    else if b = subSpace then .ok ⟨⟨"Space", "s1", "Dirty"⟩, Time.zero, Time.zero, "", ""⟩
    else if b = subUnknown then .ok ⟨⟨"Unknown", "u1", ""⟩, Time.zero, Time.zero, "", ""⟩
    else if b = subBadReservation then .error timeError
    else if b = subBadCommand then .error (typeError "PriceUpdateEvent")
    else .error syntaxError

/-- A client as built by `NewWebsocket` from the package-level state. -/
def sampleClient : Websocket := (NewWebsocket Heap.init "a" "c").2

/-- The URL values after that `NewWebsocket` call. -/
def sampleHeap : Heap := (NewWebsocket Heap.init "a" "c").1

/-- The sample client after a `Connect` whose `Dial` succeeded. -/
def sampleConnected : Websocket :=
  match Connect sampleHeap sampleClient none with
  | some r => r.ws
  | none => sampleClient

/-! ## Lemmas on steps and queues -/

theorem kinds_distinct :
    EventTypeDeviceCommand ≠ EventTypeReservation ∧ EventTypeDeviceCommand ≠ EventTypeSpace
      ∧ EventTypeDeviceCommand ≠ EventTypePriceUpdate ∧ EventTypeReservation ≠ EventTypeSpace
      ∧ EventTypeReservation ≠ EventTypePriceUpdate ∧ EventTypeSpace ≠ EventTypePriceUpdate := by
  decide

theorem NewWebsocket_chansMade (h : Heap) (accessToken clientToken : String) :
    (NewWebsocket h accessToken clientToken).2.chansMade := by
  simp [NewWebsocket, Websocket.SetBaseURL, Websocket.chansMade]

theorem sendErr_made (ws : Websocket) (err : GoError) (h : ws.errChan = .make) :
    sendErr ws err = ⟨[.err err], .returned⟩ := by
  simp [sendErr, h]

/-- The routing step on a sub-message whose header decoded, in terms of the dispatch
table: the typed decode of the table decides the step. -/
theorem routeEvent_eq_table (U : Unmarshal) (ws : Websocket) (b : RawMessage) (event : Event)
    (hch : ws.chansMade) (hev : U.event b = .ok event) :
    routeEvent U ws b =
      match dispatchTable U event.type b with
      | none => ⟨[], .running⟩
      | some (.ok s) => ⟨[s], .running⟩
      | some (.error err) => ⟨[.err err], .returned⟩ := by
  obtain ⟨he, hc, hr, hs, hp⟩ := hch
  obtain ⟨h1, h2, h3, h4, h5, h6⟩ := kinds_distinct
  obtain ⟨t, id, st⟩ := event
  simp only [routeEvent, hev, dispatchCommand, dispatchChain, dispatchTable, hc, hr, hs, hp]
  by_cases c1 : t = EventTypeDeviceCommand
  · subst c1
    cases hd : U.commandEvent b <;>
      simp [hd, Step.andThen, sendErr_made, he, h1, h2, h3, Except.map]
  · by_cases c2 : t = EventTypeReservation
    · subst c2
      cases hd : U.reservationEvent b <;>
        simp [hd, Step.andThen, sendErr_made, he, c1, Except.map]
    · by_cases c3 : t = EventTypeSpace
      · subst c3
        cases hd : U.spaceEvent b <;>
          simp [hd, Step.andThen, sendErr_made, he, c1, c2, Except.map]
      · by_cases c4 : t = EventTypePriceUpdate
        · subst c4
          cases hd : U.priceUpdateEvent b <;>
            simp [hd, Step.andThen, sendErr_made, he, c1, c2, c3, Except.map]
        · simp [Step.andThen, c1, c2, c3, c4]

/-! ## Routing of one sub-message -/

/-- C1: on a client whose channels were made, a sub-message whose routing header decodes
to a kind of the closed set and whose typed event decodes makes the routing step fall
through after exactly one send: the typed event decoded from the sub-message, on the
queue of its kind, with nothing on any other event queue and nothing on the error
queue. -/
theorem routeEvent_delivers_one (U : Unmarshal) (ws : Websocket) (b : RawMessage)
    (event : Event) (hch : ws.chansMade) (hev : U.event b = .ok event)
    (hk : recognized event.type = true)
    (hdec : ∀ err, dispatchTable U event.type b ≠ some (.error err)) :
    (routeEvent U ws b).status = .running ∧
    ((event.type = EventTypeDeviceCommand ∧ ∃ e, U.commandEvent b = .ok e
        ∧ (routeEvent U ws b).sends = [.cmd e]
        ∧ queues (routeEvent U ws b).sends = ([e], [], [], [], []))
      ∨ (event.type = EventTypeReservation ∧ ∃ e, U.reservationEvent b = .ok e
        ∧ (routeEvent U ws b).sends = [.res e]
        ∧ queues (routeEvent U ws b).sends = ([], [e], [], [], []))
      ∨ (event.type = EventTypeSpace ∧ ∃ e, U.spaceEvent b = .ok e
        ∧ (routeEvent U ws b).sends = [.space e]
        ∧ queues (routeEvent U ws b).sends = ([], [], [e], [], []))
      ∨ (event.type = EventTypePriceUpdate ∧ ∃ e, U.priceUpdateEvent b = .ok e
        ∧ (routeEvent U ws b).sends = [.priceUpdate e]
        ∧ queues (routeEvent U ws b).sends = ([], [], [], [e], []))) := by
  obtain ⟨h1, h2, h3, h4, h5, h6⟩ := kinds_distinct
  rw [routeEvent_eq_table U ws b event hch hev]
  obtain ⟨t, id, st⟩ := event
  simp only [recognized, Bool.or_eq_true, decide_eq_true_eq] at hk
  simp only at hdec
  rcases hk with ((c | c) | c) | c
  · subst c
    cases hd : U.commandEvent b with
    | error err => exact absurd (by simp [dispatchTable, hd, Except.map]) (hdec err)
    | ok e =>
      simp [dispatchTable, hd, Except.map, queues, cmdQueue, resQueue, spaceQueue,
        priceUpdateQueue, errQueue]
  · subst c
    cases hd : U.reservationEvent b with
    | error err => exact absurd (by simp [dispatchTable, hd, Except.map, h1.symm]) (hdec err)
    | ok e =>
      simp [dispatchTable, hd, Except.map, queues, cmdQueue, resQueue, spaceQueue,
        priceUpdateQueue, errQueue, h1.symm, h1, h4, h5]
  · subst c
    cases hd : U.spaceEvent b with
    | error err =>
      exact absurd (by simp [dispatchTable, hd, Except.map, h2.symm, h4.symm]) (hdec err)
    | ok e =>
      simp [dispatchTable, hd, Except.map, queues, cmdQueue, resQueue, spaceQueue,
        priceUpdateQueue, errQueue, h2.symm, h4.symm, h6]
  · subst c
    cases hd : U.priceUpdateEvent b with
    | error err =>
      exact absurd (by simp [dispatchTable, hd, Except.map, h3.symm, h5.symm, h6.symm])
        (hdec err)
    | ok e =>
      simp [dispatchTable, hd, Except.map, queues, cmdQueue, resQueue, spaceQueue,
        priceUpdateQueue, errQueue, h3.symm, h5.symm, h6.symm]

/-- The scenario of the specification: the reservation sub-message yields exactly one
reservation event, with the decoded field values, and nothing on any other queue. -/
theorem routeEvent_delivers_one_witness :
    sampleUnmarshal.event subReservation = .ok ⟨"Reservation", "a1", "Confirmed"⟩
      ∧ (routeEvent sampleUnmarshal sampleClient subReservation).status = .running
      ∧ queues (routeEvent sampleUnmarshal sampleClient subReservation).sends
          = ([], [sampleReservation], [], [], []) := by
  have hev : sampleUnmarshal.event subReservation = .ok ⟨"Reservation", "a1", "Confirmed"⟩ := rfl
  have hres : sampleUnmarshal.reservationEvent subReservation = .ok sampleReservation := rfl
  have ht : dispatchTable sampleUnmarshal "Reservation" subReservation
      = some (.ok (.res sampleReservation)) := rfl
  have h := routeEvent_delivers_one sampleUnmarshal sampleClient subReservation
    ⟨"Reservation", "a1", "Confirmed"⟩ (NewWebsocket_chansMade _ _ _) hev (by decide)
    (fun err he => by rw [ht] at he; cases he)
  refine ⟨hev, h.1, ?_⟩
  rcases h.2 with ⟨c, _⟩ | ⟨_, e, he, _, hq⟩ | ⟨c, _⟩ | ⟨c, _⟩
  · exact absurd c (by decide)
  · rw [hres] at he
    cases he
    exact hq
  · exact absurd c (by decide)
  · exact absurd c (by decide)

/-- C2: a sub-message whose routing header decodes to a kind outside the closed set
makes the routing step fall through with no send at all, so no event reaches any of the
four event queues and no error the error queue, and the range loop goes on with the
remaining sub-messages. -/
theorem routeEvent_unknown_kind (U : Unmarshal) (ws : Websocket) (b : RawMessage)
    (event : Event) (rest : List RawMessage) (hev : U.event b = .ok event)
    (hk : recognized event.type = false) :
    routeEvent U ws b = ⟨[], .running⟩
      ∧ queues (routeEvent U ws b).sends = ([], [], [], [], [])
      ∧ rangeEvents U ws (b :: rest) = rangeEvents U ws rest := by
  simp only [recognized, Bool.or_eq_false_iff, decide_eq_false_iff_not] at hk
  obtain ⟨⟨⟨c1, c2⟩, c3⟩, c4⟩ := hk
  have hr : routeEvent U ws b = ⟨[], .running⟩ := by
    simp [routeEvent, hev, dispatchCommand, dispatchChain, c1, c2, c3, c4, Step.andThen]
  refine ⟨hr, by rw [hr]; rfl, ?_⟩
  simp [rangeEvents, hr, Step.andThen]

/-- The unknown-kind scenario of the specification on the sample client. -/
theorem routeEvent_unknown_kind_witness :
    sampleUnmarshal.event subUnknown = .ok ⟨"Unknown", "u1", ""⟩
      ∧ routeEvent sampleUnmarshal sampleClient subUnknown = ⟨[], .running⟩
      ∧ rangeEvents sampleUnmarshal sampleClient [subUnknown, subReservation]
          = rangeEvents sampleUnmarshal sampleClient [subReservation] :=
  have h := routeEvent_unknown_kind sampleUnmarshal sampleClient subUnknown
    ⟨"Unknown", "u1", ""⟩ [subReservation] rfl (by decide)
  ⟨rfl, h.1, h.2.2⟩

/-! ## Decode failure inside an envelope -/

theorem routeEvent_valid (U : Unmarshal) (ws : Websocket) (b : RawMessage) (hch : ws.chansMade)
    (hv : validSub U b) : routeEvent U ws b = ⟨(expectedSend U b).toList, .running⟩ := by
  obtain ⟨event, hev, hok⟩ := hv
  rw [routeEvent_eq_table U ws b event hch hev]
  simp only [expectedSend, hev]
  cases hd : dispatchTable U event.type b with
  | none => rfl
  | some r =>
    cases r with
    | error err => exact absurd hd (hok err)
    | ok s => rfl

theorem rangeEvents_valid (U : Unmarshal) (ws : Websocket) (bs : List RawMessage)
    (hch : ws.chansMade) (hv : ∀ b ∈ bs, validSub U b) :
    rangeEvents U ws bs = ⟨bs.filterMap (expectedSend U), .running⟩ := by
  induction bs with
  | nil => rfl
  | cons b t ih =>
    have hb := routeEvent_valid U ws b hch (hv b (List.mem_cons_self b t))
    have ht := ih (fun x hx => hv x (List.mem_cons_of_mem b hx))
    simp only [rangeEvents, hb, ht, Step.andThen, List.filterMap_cons]
    cases expectedSend U b <;> simp

theorem onRead_valid (U : Unmarshal) (ws : Websocket) (f : String) (hch : ws.chansMade)
    (hv : validEnvelope U f) :
    onRead U ws (.message f) = ⟨(subMessages U f).filterMap (expectedSend U), .running⟩ := by
  obtain ⟨⟨m, hm⟩, hsubs⟩ := hv
  have hs : subMessages U f = m.Events := by simp [subMessages, hm]
  rw [hs] at hsubs
  simp only [onRead, hm, hs]
  exact rangeEvents_valid U ws m.Events hch hsubs

theorem readLoop_valid (U : Unmarshal) (ws : Websocket) (frames : List String)
    (hch : ws.chansMade) (hv : ∀ f ∈ frames, validEnvelope U f) :
    readLoop U ws (frames.map (fun f => Select.default (.message f)))
      = ⟨(frames.flatMap (subMessages U)).filterMap (expectedSend U), .running,
          frames.length, frames.length⟩ := by
  induction frames with
  | nil => rfl
  | cons f t ih =>
    have hf := onRead_valid U ws f hch (hv f (List.mem_cons_self f t))
    have ht := ih (fun x hx => hv x (List.mem_cons_of_mem f hx))
    simp [readLoop, hf, ht, List.flatMap_cons, List.filterMap_append]

/-- C4: on a client whose channels were made, reading a sequence of valid envelopes
leaves the read goroutine in its loop with one send per sub-message of a kind of the
closed set, none lost, in the order in which the sub-messages stand in the envelopes; so
each queue holds its events in that relative order.  An envelope of one reservation and
one space sub-message yields the reservation event and the space event. -/
theorem readLoop_order_preserved (U : Unmarshal) (ws : Websocket) (frames : List String)
    (hch : ws.chansMade) (hv : ∀ f ∈ frames, validEnvelope U f) :
    (readLoop U ws (frames.map (fun f => Select.default (.message f)))).status = .running
      ∧ (readLoop U ws (frames.map (fun f => Select.default (.message f)))).sends
          = (frames.flatMap (subMessages U)).filterMap (expectedSend U)
      ∧ queues (readLoop U ws (frames.map (fun f => Select.default (.message f)))).sends
          = queues ((frames.flatMap (subMessages U)).filterMap (expectedSend U))
      ∧ ∀ f m r s er es re se, U.message f = .ok m → m.Events = [r, s] →
          U.event r = .ok er → er.type = EventTypeReservation → U.reservationEvent r = .ok re →
          U.event s = .ok es → es.type = EventTypeSpace → U.spaceEvent s = .ok se →
          onRead U ws (.message f) = ⟨[.res re, .space se], .running⟩
            ∧ resQueue (onRead U ws (.message f)).sends = [re]
            ∧ spaceQueue (onRead U ws (.message f)).sends = [se] := by
  rw [readLoop_valid U ws frames hch hv]
  refine ⟨rfl, rfl, rfl, ?_⟩
  intro f m r s er es re se hm hev hr htr hre hs hts hse
  obtain ⟨h1, h2, h3, h4, h5, h6⟩ := kinds_distinct
  have hrr : routeEvent U ws r = ⟨[.res re], .running⟩ := by
    rw [routeEvent_eq_table U ws r er hch hr, htr]
    simp [dispatchTable, h1.symm, hre, Except.map]
  have hss : routeEvent U ws s = ⟨[.space se], .running⟩ := by
    rw [routeEvent_eq_table U ws s es hch hs, hts]
    simp [dispatchTable, h2.symm, h4.symm, hse, Except.map]
  have ho : onRead U ws (.message f) = ⟨[.res re, .space se], .running⟩ := by
    simp [onRead, hm, hev, rangeEvents, hrr, hss, Step.andThen]
  rw [ho]
  exact ⟨rfl, rfl, rfl⟩

set_option maxRecDepth 100000 in
theorem sample_message_scenario :
    sampleUnmarshal.message (envelope [subReservation]) = .ok ⟨[subReservation]⟩ := rfl

set_option maxRecDepth 100000 in
theorem sample_message_mixed :
    sampleUnmarshal.message (envelope [subReservation, subSpace])
      = .ok ⟨[subReservation, subSpace]⟩ := rfl

set_option maxRecDepth 100000 in
theorem sample_message_unknown :
    sampleUnmarshal.message (envelope [subUnknown]) = .ok ⟨[subUnknown]⟩ := rfl

theorem sample_valid_reservation : validSub sampleUnmarshal subReservation :=
  ⟨⟨"Reservation", "a1", "Confirmed"⟩, rfl, fun err he => by
    have ht : dispatchTable sampleUnmarshal "Reservation" subReservation
        = some (.ok (.res sampleReservation)) := rfl
    rw [ht] at he
    cases he⟩

theorem sample_valid_space : validSub sampleUnmarshal subSpace :=
  ⟨⟨"Space", "s1", "Dirty"⟩, rfl, fun err he => by
    have ht : dispatchTable sampleUnmarshal "Space" subSpace
        = some (.ok (.space sampleSpace)) := rfl
    rw [ht] at he
    cases he⟩

theorem sample_valid_unknown : validSub sampleUnmarshal subUnknown :=
  ⟨⟨"Unknown", "u1", ""⟩, rfl, fun err he => by
    have ht : dispatchTable sampleUnmarshal "Unknown" subUnknown = none := rfl
    rw [ht] at he
    cases he⟩

theorem sample_frames_valid :
    ∀ f ∈ [envelope [subReservation], envelope [subUnknown], envelope [subReservation, subSpace]],
      validEnvelope sampleUnmarshal f := by
  intro f hf
  simp only [List.mem_cons, List.mem_singleton, List.not_mem_nil, or_false] at hf
  rcases hf with rfl | rfl | rfl
  · refine ⟨⟨_, sample_message_scenario⟩, ?_⟩
    simp only [subMessages, sample_message_scenario, List.mem_singleton]
    rintro b rfl
    exact sample_valid_reservation
  · refine ⟨⟨_, sample_message_unknown⟩, ?_⟩
    simp only [subMessages, sample_message_unknown, List.mem_singleton]
    rintro b rfl
    exact sample_valid_unknown
  · refine ⟨⟨_, sample_message_mixed⟩, ?_⟩
    simp only [subMessages, sample_message_mixed, List.mem_cons, List.mem_singleton,
      List.not_mem_nil, or_false]
    rintro b (rfl | rfl)
    · exact sample_valid_reservation
    · exact sample_valid_space

/-- Three valid frames (the scenario, an unknown kind, a reservation with a space): the
events come out in envelope order, and the mixed frame yields both of its events. -/
theorem readLoop_order_preserved_witness :
    (readLoop sampleUnmarshal sampleClient
        [.default (.message (envelope [subReservation])),
         .default (.message (envelope [subUnknown])),
         .default (.message (envelope [subReservation, subSpace]))]).sends
      = [.res sampleReservation, .res sampleReservation, .space sampleSpace]
    ∧ onRead sampleUnmarshal sampleClient (.message (envelope [subReservation, subSpace]))
      = ⟨[.res sampleReservation, .space sampleSpace], .running⟩ := by
  have h := readLoop_order_preserved sampleUnmarshal sampleClient
    [envelope [subReservation], envelope [subUnknown], envelope [subReservation, subSpace]]
    (NewWebsocket_chansMade _ _ _) sample_frames_valid
  refine ⟨?_, (h.2.2.2 _ _ subReservation subSpace _ _ sampleReservation sampleSpace
    sample_message_mixed rfl (rfl : sampleUnmarshal.event subReservation = .ok ⟨"Reservation", "a1", "Confirmed"⟩) rfl rfl
    (rfl : sampleUnmarshal.event subSpace = .ok ⟨"Space", "s1", "Dirty"⟩) rfl rfl).1⟩
  have hs := h.2.1
  simp only [List.map_cons, List.map_nil] at hs
  rw [hs]
  simp only [List.flatMap_cons, List.flatMap_nil, subMessages, sample_message_scenario,
    sample_message_unknown, sample_message_mixed, List.append_nil, List.cons_append,
    List.nil_append]
  have e1 : expectedSend sampleUnmarshal subReservation = some (.res sampleReservation) := rfl
  have e2 : expectedSend sampleUnmarshal subUnknown = none := rfl
  have e3 : expectedSend sampleUnmarshal subSpace = some (.space sampleSpace) := rfl
  simp [List.filterMap_cons, e1, e2, e3]

/-! ## Cancellation and read errors -/

/-- C6, the code at the failing input: with the cancellation signal set at the pre-read
check of every iteration, the read goroutine reads no frame and sends nothing, and after
any number `n` of iterations it is still in its loop: the `break` of the `ctx.Done()`
case ends the `select` statement, not the `for`. -/
theorem readLoop_cancelled_spins (U : Unmarshal) (ws : Websocket) (n : Nat) :
    readLoop U ws (List.replicate n Select.done) = ⟨[], .running, n, 0⟩ := by
  induction n with
  | zero => rfl
  | succ k ih => simp [List.replicate_succ, readLoop, ih]

theorem keepAliveLoop_ticks (conn : Conn) (n : Nat) (tail : List KeepAliveSelect) :
    keepAliveLoop conn (List.replicate n (.tick none) ++ tail)
      = keepAliveLoop { conn with pings := conn.pings + n } tail := by
  induction n generalizing conn with
  | zero => rfl
  | succ k ih =>
    have hp : conn.pings + 1 + k = conn.pings + (k + 1) := by omega
    have hstep : keepAliveLoop conn (List.replicate (k + 1) (.tick none) ++ tail)
        = keepAliveLoop { conn with pings := conn.pings + 1 }
            (List.replicate k (.tick none) ++ tail) := rfl
    rw [hstep, ih]
    simp only [hp]

/-- Every script of `KeepAlive` is a run of successful ticks that stops there, or goes
on with a failing tick, or goes on with a cancellation. -/
theorem keepAlive_script_cases (script : List KeepAliveSelect) :
    ∃ n, script = List.replicate n (.tick none)
      ∨ (∃ err rest, script = List.replicate n (.tick none) ++ .tick (some err) :: rest)
      ∨ (∃ rest, script = List.replicate n (.tick none) ++ .done :: rest) := by
  induction script with
  | nil => exact ⟨0, Or.inl rfl⟩
  | cons x t ih =>
    cases x with
    | done => exact ⟨0, Or.inr (Or.inr ⟨t, rfl⟩)⟩
    | tick w =>
      cases w with
      | some err => exact ⟨0, Or.inr (Or.inl ⟨err, t, rfl⟩)⟩
      | none =>
        obtain ⟨n, h | ⟨err, rest, h⟩ | ⟨rest, h⟩⟩ := ih
        · exact ⟨n + 1, Or.inl (by rw [h, List.replicate_succ])⟩
        · exact ⟨n + 1, Or.inr (Or.inl ⟨err, rest, by rw [h, List.replicate_succ]; rfl⟩)⟩
        · exact ⟨n + 1, Or.inr (Or.inr ⟨rest, by rw [h, List.replicate_succ]; rfl⟩)⟩

/-- C8: on a connected client with an error channel, the keep-alive goroutine hands one
ping to `WriteControl` per tick.  After `n` successful ticks: a tick whose write fails
with `err` ends `KeepAlive` with `err` after `n + 1` pings, whatever the script holds
after it, and exactly that one error reaches the error queue; a cancellation ends it
with nil after `n` pings and nothing reaches the error queue; and with neither, the
loop is still running after `n` pings. -/
theorem keepAliveGoroutine_spec (ws : Websocket) (conn : Conn) (n : Nat)
    (rest : List KeepAliveSelect) (hc : ws.connection = some conn)
    (he : ws.errChan = .make) :
    (∀ err, keepAliveGoroutine ws (List.replicate n (.tick none) ++ .tick (some err) :: rest)
        = ⟨some { conn with pings := conn.pings + n + 1 }, .returned (some err), [.err err],
            .returned⟩)
      ∧ keepAliveGoroutine ws (List.replicate n (.tick none) ++ .done :: rest)
          = ⟨some { conn with pings := conn.pings + n }, .returned none, [], .returned⟩
      ∧ keepAliveGoroutine ws (List.replicate n (.tick none))
          = ⟨some { conn with pings := conn.pings + n }, .running, [], .running⟩ := by
  refine ⟨fun err => ?_, ?_, ?_⟩
  · simp [keepAliveGoroutine, KeepAlive, hc, he, keepAliveLoop_ticks, keepAliveLoop]
  · simp [keepAliveGoroutine, KeepAlive, hc, he, keepAliveLoop_ticks, keepAliveLoop]
  · have h := keepAliveLoop_ticks conn n []
    rw [List.append_nil] at h
    simp [keepAliveGoroutine, KeepAlive, hc, h, keepAliveLoop]

/-- Two good pings, then a failed write, on the connected sample client. -/
theorem keepAliveGoroutine_spec_witness :
    sampleConnected.connection = some ⟨0, false, false⟩
      ∧ keepAliveGoroutine sampleConnected
          [.tick none, .tick none, .tick (some (.other "write: broken pipe")), .tick none, .done]
        = ⟨some ⟨3, false, false⟩, .returned (some (.other "write: broken pipe")),
            [.err (.other "write: broken pipe")], .returned⟩
      ∧ keepAliveGoroutine sampleConnected [.tick none, .tick none, .done, .tick none]
        = ⟨some ⟨2, false, false⟩, .returned none, [], .returned⟩ :=
  have h := keepAliveGoroutine_spec sampleConnected ⟨0, false, false⟩ 2 [.tick none, .done]
    (by decide) (by decide)
  have h2 := keepAliveGoroutine_spec sampleConnected ⟨0, false, false⟩ 2 [.tick none]
    (by decide) (by decide)
  ⟨by decide, h.1 (.other "write: broken pipe"), h2.2.1⟩

/-! ## `Close` -/

/-- When the close frame is written, `Close` closes the underlying connection and returns
what closing it returned. -/
theorem Close_after_write (ws : Websocket) (conn : Conn) (close : Option GoError) :
    Close { ws with connection := some conn } none close
      = some ({ ws with connection := some ⟨conn.pings, true, true⟩ }, close) := rfl

/-- C5, the code at the failing input: when writing the close control frame fails,
`Close` returns that error at once and leaves the connection as it was before the call;
on the connected sample client the underlying connection is still open afterwards. -/
theorem Close_write_failure (ws : Websocket) (conn : Conn) (err : GoError)
    (close : Option GoError) :
    Close { ws with connection := some conn } (some err) close
        = some ({ ws with connection := some conn }, some err)
      ∧ (Close sampleConnected (some err) close).map
          (fun r => (r.1.connection.map (fun c => c.closed), r.2))
        = some (some false, some err) :=
  ⟨rfl, rfl⟩

/-! ## The connect URL -/

theorem Heap.get_set (h : Heap) (r : URLRef) (u : URL) : (h.set r u).get r = u := by
  cases r <;> simp [Heap.get, Heap.set]

/-- The method `Connect` leaves scheme, host and path of the base URL as they were; it replaces the
raw query, and the URL it dials is the base URL after that write. -/
theorem Connect_base (h : Heap) (ws : Websocket) (u : URLRef) (dial : Option GoError)
    (hu : ws.baseURL = some u) :
    ∃ r, Connect h ws dial = some r ∧ r.dialed = r.heap.get u
      ∧ (r.heap.get u).Scheme = (h.get u).Scheme ∧ (r.heap.get u).Host = (h.get u).Host
      ∧ (r.heap.get u).Path = (h.get u).Path
      ∧ (r.heap.get u).RawQuery
          = ((((h.get u).Query).Add "ClientToken" ws.clientToken).Add "AccessToken"
              ws.accessToken).Encode := by
  cases dial <;>
    simp [Connect, Websocket.BaseURL, hu, Heap.get_set, Websocket.ClientToken,
      Websocket.AccessToken]

/-- After `SetBaseURL` the base URL has the scheme `wss`, whatever scheme it came with. -/
theorem SetBaseURL_scheme (h : Heap) (ws : Websocket) (u : URLRef) :
    ((Websocket.SetBaseURL h ws u).1.get u).Scheme = "wss"
      ∧ (Websocket.SetBaseURL h ws u).2.baseURL = some u := by
  simp [Websocket.SetBaseURL, Heap.get_set]

/-- C9, the code at the failing input: a client built by `NewWebsocket` with access token
`a` and client token `c` shares the package-level `WebsocketURL`; one `Connect` keeps
host and path but turns the raw query of that URL from empty into the encoded tokens. -/
theorem Connect_rewrites_base_query :
    sampleClient.baseURL = some .WebsocketURL
      ∧ sampleHeap.WebsocketURL = ⟨"wss", "www.mews.li", "/ws/connector", ""⟩
      ∧ (Connect sampleHeap sampleClient none).map (fun r => r.heap.WebsocketURL)
          = some ⟨"wss", "www.mews.li", "/ws/connector", "AccessToken=a&ClientToken=c"⟩ := by
  decide

/-- C10, the code at the failing input: the second `Connect` of the same client dials a
URL that carries the `ClientToken` and the `AccessToken` parameter twice each, because
the first call wrote its query into the base URL. -/
theorem Connect_twice_duplicates_tokens :
    (Connect sampleHeap sampleClient none).map (fun r => r.dialed)
        = some ⟨"wss", "www.mews.li", "/ws/connector", "AccessToken=a&ClientToken=c"⟩
      ∧ ((Connect sampleHeap sampleClient none).bind (fun r => Connect r.heap r.ws none)).map
          (fun r => (r.dialed, r.dialed.Query.Get "ClientToken", r.dialed.Query.Get "AccessToken"))
        = some (⟨"wss", "www.mews.li", "/ws/connector",
                  "AccessToken=a&AccessToken=a&ClientToken=c&ClientToken=c"⟩,
                ["c", "c"], ["a", "a"]) := by
  decide

end Mews
